import Mathlib

/-!
Verification development for the ACM digital-library search tool
(`acm_lib_search.py`).

The tool drives a browser to search dl.acm.org, parses each rendered
result fragment into a `SearchResult` record with BeautifulSoup, and
appends records as JSON objects to a file.

Shallow embedding conventions:

* A parsed markup tree is a `Node`: either a `NavigableString` leaf
  (`Node.nstring`) or a `Tag` (`Node.tag`) with a name, an attribute
  association list, and a child list.  `BeautifulSoup` is called in the
  source with `multi_valued_attributes=None`, so the `class` attribute is
  a plain string and class queries match it by string equality.
  `parse_html` in the source receives the raw markup string and calls
  `BeautifulSoup` on it; the embedding starts from the already-parsed
  tree (the soup object), which is the only part BeautifulSoup
  contributes before the field rules run.
* Python exceptions are modelled by `Except PyErr`; a function that the
  source cannot make raise is given its plain return type.
* `doi` can be Python `None` at runtime (BeautifulSoup's `.string` is
  `None` on a tag without a unique string child), so the record field is
  an `Option String` with `none` standing for Python `None`.
* File I/O is the boundary: the body of the `with open(...)` block in
  `write_results_to_disk` is abstracted as an oracle argument giving the
  outcome of writing a given record list.
-/

namespace AcmLibSearch

mutual
/-- A parsed markup tree: a BeautifulSoup `NavigableString` or `Tag`.
`attrs` is an association list because with `multi_valued_attributes=None`
every attribute value, `class` included, is a single string. -/
inductive Node where
  | nstring (s : String)
  | tag (name : String) (attrs : List (String × String)) (children : NodeList)
inductive NodeList where
  | nil
  | cons (hd : Node) (tl : NodeList)
end

mutual
/-- All `NavigableString` pieces in the subtree, in document order
(BeautifulSoup's `.strings` generator, used by `parse_title`). -/
def Node.strings : Node → List String
  | .nstring s => [s]
  | .tag _ _ cs => NodeList.strings cs
def NodeList.strings : NodeList → List String
  | .nil => []
  | .cons c cs => Node.strings c ++ NodeList.strings cs
end

/-- BeautifulSoup's `.text`: the concatenation of all strings in the
subtree with no separator. -/
def Node.text (n : Node) : String :=
  String.join n.strings

mutual
/-- All nodes strictly below the node, in document (preorder) order: the
search space of BeautifulSoup's `find`, `find_all` and tag-name
attribute lookups. -/
def Node.descendants : Node → List Node
  | .nstring _ => []
  | .tag _ _ cs => NodeList.descendants cs
def NodeList.descendants : NodeList → List Node
  | .nil => []
  | .cons c cs => c :: Node.descendants c ++ NodeList.descendants cs
end

mutual
/-- BeautifulSoup's `.string`: on a string it is the string; on a tag
with exactly one child it recurses into that child; otherwise `None`. -/
def Node.string : Node → Option String
  | .nstring s => some s
  | .tag _ _ cs => NodeList.onlyChildString cs
def NodeList.onlyChildString : NodeList → Option String
  | .cons c .nil => Node.string c
  | _ => none
end

/-- Attribute lookup `tag[key]` as an `Option` (Python raises `KeyError`
when the attribute is absent; callers decide). -/
def Node.getAttr : Node → String → Option String
  | .nstring _, _ => none
  | .tag _ attrs _, key => (attrs.find? (fun kv => kv.1 == key)).map (fun kv => kv.2)

/-- Does this node match `find(name, class_=cls)`?  With
`multi_valued_attributes=None` the `class` attribute is compared as a
whole string. -/
def Node.isTagClass (n : Node) (name cls : String) : Bool :=
  match n with
  | .nstring _ => false
  | .tag t _ _ => t == name && n.getAttr "class" == some cls

/-- Does this node match `find(name, {key: val})`? -/
def Node.isTagAttr (n : Node) (name key val : String) : Bool :=
  match n with
  | .nstring _ => false
  | .tag t _ _ => t == name && n.getAttr key == some val

/-- Is this a tag with the given name? -/
def Node.isTagNamed (n : Node) (name : String) : Bool :=
  match n with
  | .nstring _ => false
  | .tag t _ _ => t == name

/-- `bs.find(name, class_=cls)`: first matching element in document
order, or `None`. -/
def find (bs : Node) (name cls : String) : Option Node :=
  bs.descendants.find? (fun n => n.isTagClass name cls)

/-- `bs.find_all(name, class_=cls)`: all matching elements in document
order (always a list, never `None`). -/
def find_all (bs : Node) (name cls : String) : List Node :=
  bs.descendants.filter (fun n => n.isTagClass name cls)

/-- `bs.find(name, {key: val})`: first element carrying the attribute. -/
def find_attr (bs : Node) (name key val : String) : Option Node :=
  bs.descendants.find? (fun n => n.isTagAttr name key val)

/-- `tag.a`, `tag.p`, `tag.span`: first descendant with the given tag
name, or `None`. -/
def Node.firstTagNamed (n : Node) (name : String) : Option Node :=
  n.descendants.find? (fun m => m.isTagNamed name)

/-- Build a child list from a `List` (convenience for concrete trees). -/
def nodes : List Node → NodeList
  | [] => NodeList.nil
  | n :: ns => NodeList.cons n (nodes ns)

/-- The soup object built from one result fragment: a document root
whose only child is the fragment, so `find` searches the fragment node
itself and everything below it. -/
def soup1 (fragment : Node) : Node :=
  Node.tag "[document]" [] (NodeList.cons fragment NodeList.nil)

/-- Python's `\s` character class (ASCII part), as used by `re.sub`. -/
def isPySpace (c : Char) : Bool :=
  c == ' ' || c == '\t' || c == '\n' || c == '\r' || c == '\x0b' || c == '\x0c'

/-- One pass of `re.sub(r'\s+', ' ', s)`: the flag records whether we
are inside a whitespace run already replaced by one space. -/
def collapseChars : List Char → Bool → List Char
  | [], _ => []
  | c :: cs, inRun =>
    if isPySpace c then
      if inRun then collapseChars cs true
      else ' ' :: collapseChars cs true
    else c :: collapseChars cs false

/-- `re.sub(r'\s+', ' ', s)`: every maximal whitespace run becomes a
single space. -/
def collapseWs (s : String) : String :=
  String.mk (collapseChars s.data false)

/-- `re.sub(r'\n', ' ', s)`: every newline becomes a space. -/
def replaceNewlines (s : String) : String :=
  String.mk (s.data.map (fun c => if c == '\n' then ' ' else c))

/-- Value of a list of decimal digit characters. -/
def digitsVal (ds : List Char) : Nat :=
  ds.foldl (fun n c => n * 10 + (c.toNat - 48)) 0

/-- Core of Python's `int(s)` after stripping: optional sign followed by
at least one ASCII digit; anything else raises `ValueError` (`none`). -/
def pyIntCore (cs : List Char) : Option Int :=
  match cs with
  | [] => none
  | '+' :: ds =>
    if !ds.isEmpty && ds.all Char.isDigit then some (Int.ofNat (digitsVal ds)) else none
  | '-' :: ds =>
    if !ds.isEmpty && ds.all Char.isDigit then some (-(Int.ofNat (digitsVal ds))) else none
  | ds =>
    if ds.all Char.isDigit then some (Int.ofNat (digitsVal ds)) else none

/-- Python's `int(s)` on text (ASCII model): strips surrounding
whitespace, then parses an optionally signed decimal numeral; `none`
models the `ValueError` raised otherwise. -/
def pyInt (s : String) : Option Int :=
  pyIntCore (((s.data.dropWhile isPySpace).reverse.dropWhile isPySpace).reverse)

/-- The Python exception kinds the source can raise on the paths we
model. -/
inductive PyErr where
  | typeError
  | keyError
  | attributeError
  | valueError
  | indexError
  | osError
deriving Repr, DecidableEq

/-- The `SearchResult` container (source lines 15-37), field for field
and in constructor order.  `doi` is `Option String` because
`parse_doi` returns BeautifulSoup's `.string`, which is Python `None`
on a tag without a unique string child; every other field always
receives a value of its plain type. -/
structure SearchResult where
  title : String
  authors : List String
  conference : String
  abstract : String
  eprint_url : String
  doi : Option String
  total_citations : Int
  total_downloads : Int
  date : String
deriving Repr, DecidableEq

/-- The full-name attribute of one author container: its first `a`
descendant's `title` attribute (`elem.a["title"]`, lines 104-105). -/
def authorTitle (e : Node) : Option String :=
  (e.firstTagNamed "a").bind (fun a => a.getAttr "title")

/-- The `for elem in span_authors` loop of `parse_authors` (lines
103-106): `elem.a` being `None` raises `TypeError` (subscripting
`None`), a missing `title` attribute raises `KeyError`; otherwise the
attribute value is appended. -/
def parse_authors_loop : List Node → Except PyErr (List String)
  | [] => Except.ok []
  | e :: es =>
    match e.firstTagNamed "a" with
    | none => Except.error PyErr.typeError
    | some a =>
      match a.getAttr "title" with
      | none => Except.error PyErr.keyError
      | some t =>
        match parse_authors_loop es with
        | Except.ok rest => Except.ok (t :: rest)
        | Except.error err => Except.error err

/-- `parse_authors` (lines 99-109).  `find_all` never returns `None` in
Python, so the `is not None` test always succeeds and the `else: return
[]` branch is dead; the loop body is `parse_authors_loop`. -/
def parse_authors (bs : Node) : Except PyErr (List String) :=
  parse_authors_loop (find_all bs "span" "hlFld-ContribAuthor")

/-- `parse_abstract` (lines 111-119): when the truncated-abstract
container is present, `abstract_tag_parent.p` being `None` raises
`AttributeError` on `.text`; otherwise newlines are replaced by spaces
and a literal `"..."` is appended.  Sentinel `""` when absent. -/
def parse_abstract (bs : Node) : Except PyErr String :=
  match find bs "div" "issue-item__abstract truncate-text trunc-done" with
  | some parent =>
    match parent.firstTagNamed "p" with
    | none => Except.error PyErr.attributeError
    | some p => Except.ok (replaceNewlines p.text ++ "...")
  | none => Except.ok ""

/-- `parse_doi` (lines 121-126): returns `doi_tag.string`, which can be
Python `None`; sentinel `""` (`some ""`) when the tag is absent. -/
def parse_doi (bs : Node) : Option String :=
  match find bs "a" "issue-item__doi dot-separator" with
  | some t => t.string
  | none => some ""

/-- `parse_date` (lines 128-134): `re.sub` on a `None` `date_tag.string`
raises `TypeError`; otherwise whitespace runs collapse to one space.
Sentinel `""` when the element is absent. -/
def parse_date (bs : Node) : Except PyErr String :=
  match find bs "div" "bookPubDate simple-tooltip__block--b" with
  | some t =>
    match t.string with
    | none => Except.error PyErr.typeError
    | some d => Except.ok (collapseWs d)
  | none => Except.ok ""

/-- `parse_title` (lines 136-145): joins every string of the title
container's subtree (`.strings`) with single spaces and collapses
whitespace runs; sentinel `""` when the container is absent.  Cannot
raise. -/
def parse_title (bs : Node) : String :=
  match find bs "span" "hlFld-Title" with
  | some t => collapseWs (String.intercalate " " t.strings)
  | none => ""

/-- `parse_conference` (lines 147-153): the section-title element's
`.text` with whitespace runs collapsed; sentinel `""`.  Cannot raise. -/
def parse_conference (bs : Node) : String :=
  match find bs "span" "epub-section__title" with
  | some t => collapseWs t.text
  | none => ""

/-- `parse_pdf_link` (lines 155-160): the `href` of the anchor whose
`data-title` is `PDF`; a present anchor without `href` raises
`KeyError`.  Sentinel `""` when absent. -/
def parse_pdf_link (bs : Node) : Except PyErr String :=
  match find_attr bs "a" "data-title" "PDF" with
  | some t =>
    match t.getAttr "href" with
    | none => Except.error PyErr.keyError
    | some h => Except.ok h
  | none => Except.ok ""

/-- `parse_total_citations` (lines 162-168): inside a present
`div.citation`, a missing `span` raises `AttributeError` (`.text` on
`None`) and non-numeric text raises `ValueError` from `int`; sentinel
`-1` when the container is absent. -/
def parse_total_citations (bs : Node) : Except PyErr Int :=
  match find bs "div" "citation" with
  | some parent =>
    match parent.firstTagNamed "span" with
    | none => Except.error PyErr.attributeError
    | some s =>
      match pyInt s.text with
      | some n => Except.ok n
      | none => Except.error PyErr.valueError
  | none => Except.ok (-1)

/-- `parse_total_downloads` (lines 170-176): same shape as the citation
rule, over `div.metric`. -/
def parse_total_downloads (bs : Node) : Except PyErr Int :=
  match find bs "div" "metric" with
  | some parent =>
    match parent.firstTagNamed "span" with
    | none => Except.error PyErr.attributeError
    | some s =>
      match pyInt s.text with
      | some n => Except.ok n
      | none => Except.error PyErr.valueError
  | none => Except.ok (-1)

/-- `parse_html` (lines 178-201) on the parsed soup of one fragment:
runs the field rules in the source's statement order (title, authors,
conference, abstract, doi, pdf_link, date, downloads, citations); the
first exception raised escapes; otherwise the `SearchResult` is built
positionally as in line 197-201 (`pdf_link` fills `eprint_url`). -/
def parse_html (bs : Node) : Except PyErr SearchResult :=
  let title := parse_title bs
  match parse_authors bs with
  | Except.error e => Except.error e
  | Except.ok authors =>
    let conference := parse_conference bs
    match parse_abstract bs with
    | Except.error e => Except.error e
    | Except.ok abstract =>
      let doi := parse_doi bs
      match parse_pdf_link bs with
      | Except.error e => Except.error e
      | Except.ok pdf_link =>
        match parse_date bs with
        | Except.error e => Except.error e
        | Except.ok date =>
          match parse_total_downloads bs with
          | Except.error e => Except.error e
          | Except.ok tot_downloads =>
            match parse_total_citations bs with
            | Except.error e => Except.error e
            | Except.ok tot_citations =>
              Except.ok ⟨title, authors, conference, abstract, pdf_link, doi,
                tot_citations, tot_downloads, date⟩

/-- The `for html in args: search_res.append(parse_html(html))` loop of
`get_search_results_from_html` (lines 204-206): the list it builds. -/
def parse_html_loop : List Node → Except PyErr (List SearchResult)
  | [] => Except.ok []
  | h :: hs =>
    match parse_html h with
    | Except.error e => Except.error e
    | Except.ok r =>
      match parse_html_loop hs with
      | Except.error e => Except.error e
      | Except.ok rs => Except.ok (r :: rs)

/-- `get_search_results_from_html(*args)` (lines 203-206): builds
`search_res` but has no `return` statement, so on completion Python
returns `None` (modelled as `Except.ok none`) despite the annotated
return type `List[SearchResult]`. -/
def get_search_results_from_html (args : List Node) :
    Except PyErr (Option (List SearchResult)) :=
  match parse_html_loop args with
  | Except.error e => Except.error e
  | Except.ok _ => Except.ok none

/-- `get_top_search_result_from_html(*args)` (lines 208-217):
`args[0]` raises `IndexError` on an empty argument tuple; otherwise the
first fragment is parsed. -/
def get_top_search_result_from_html (args : List Node) :
    Except PyErr SearchResult :=
  match args with
  | [] => Except.error PyErr.indexError
  | a :: _ => parse_html a

/-- The `results` parameter of `write_results_to_disk` (line 293):
Python accepts either one `SearchResult` or a list of them. -/
inductive ResultsArg where
  | one (r : SearchResult)
  | many (rs : List SearchResult)

/-- The `isinstance` normalisation at lines 294-295: a single record
becomes a one-element list. -/
def normalize_results : ResultsArg → List SearchResult
  | ResultsArg.one r => [r]
  | ResultsArg.many rs => rs

/-- `write_results_to_disk` (lines 293-303).  `io` is the outcome of the
`with open(file_path, 'a')` block that `json.dump`s the normalised
record list (lines 297-299) — the filesystem boundary.  The `try`
returns `True` when the block completes; any exception is caught by the
bare `except`, the traceback is printed, and `False` is returned, so
the function is total with a plain `Bool` result. -/
def write_results_to_disk (io : List SearchResult → Except PyErr Unit)
    (file_path : String) (results : ResultsArg) : Bool :=
  let results := normalize_results results
  match io results with
  | Except.ok _ => true
  | Except.error _ => false

/-- The runtime values `self.parsed_res` can hold in `ACMLibSearcher`:
Python `None` (what the broken `search_top_20` stores), a list of
records, or a single record (what `search_top_1` stores). -/
inductive PyParsedRes where
  | pynone
  | plist (rs : List SearchResult)
  | pone (r : SearchResult)

/-- Python truthiness of `self.parsed_res` as tested by
`if not self.parsed_res` (line 280): `None` and `[]` are falsy, a
non-empty list and a `SearchResult` object are truthy. -/
def PyParsedRes.truthy : PyParsedRes → Bool
  | PyParsedRes.pynone => false
  | PyParsedRes.plist rs => !rs.isEmpty
  | PyParsedRes.pone _ => true

/-- State of the `parsed_res` attribute: `__init__` (line 231-232) never
assigns it, so before any search a read raises `AttributeError`. -/
inductive ParsedResAttr where
  | unset
  | set (v : PyParsedRes)

/-- `ACMLibSearcher.save_results` (lines 268-282): reading an unset
`self.parsed_res` raises `AttributeError`; a falsy value raises
`ValueError` (line 281); otherwise `write_results_to_disk` runs but its
`Bool` is discarded — the method has no `return` statement and yields
Python `None` (`Except.ok none`), despite its annotated `-> bool` and
its docstring "True if successful, else False". -/
def save_results (attr : ParsedResAttr)
    (io : List SearchResult → Except PyErr Unit) (file_path : String) :
    Except PyErr (Option Bool) :=
  match attr with
  | ParsedResAttr.unset => Except.error PyErr.attributeError
  | ParsedResAttr.set v =>
    if v.truthy then
      let arg := match v with
        | PyParsedRes.pynone => ResultsArg.many []
        | PyParsedRes.plist rs => ResultsArg.many rs
        | PyParsedRes.pone r => ResultsArg.one r
      let _ := write_results_to_disk io file_path arg
      Except.ok none
    else Except.error PyErr.valueError

/-- `ACMLibSearcher.search_top_20` (lines 234-249) after the browser
search returned the fragment list: it stores
`get_search_results_from_html`'s value in `self.parsed_res` and, with
`to_dict=True`, runs `[res.to_dict() for res in parsed_res]`; iterating
Python `None` raises `TypeError`.  (Line 245 actually passes the whole
list as a single `*args` element; we model the loop over the individual
fragments, the reading most favourable to the code — the result is
`None` either way because the callee never returns its list.)
`to_dict` conversion is the identity on the record's fields, so the
dict list is represented by the record list itself. -/
def search_top_20_post (results : List Node) (to_dict : Bool) :
    Except PyErr (Option (List SearchResult)) :=
  match get_search_results_from_html results with
  | Except.error e => Except.error e
  | Except.ok parsed_res =>
    if to_dict then
      match parsed_res with
      | none => Except.error PyErr.typeError
      | some rs => Except.ok (some rs)
    else Except.ok parsed_res

/-- `quit_driver` (lines 59-61): releases the browser; the call itself
cannot raise in our model. -/
def quit_driver (driver : Unit) : Except PyErr Unit :=
  Except.ok ()

/-- The call `quit_driver()` at line 315: `quit_driver` declares one
required positional parameter `driver` (line 59), so Python raises
`TypeError: quit_driver() missing 1 required positional argument`
before the function body runs. -/
def quit_driver_call0 : Except PyErr Unit :=
  Except.error PyErr.typeError

/-- The `__main__` block (lines 305-321) from the point where
`search_acm_for_title` has produced `scraped_results`: line 315 calls
`quit_driver()` with no argument, then line 317 takes the top result
(the source passes the whole list as one `*args` element; we model the
intended spread, which the crash at line 315 makes unreachable), and
lines 318-321 print `"Done"` on a successful write and the failure
message otherwise.  `io` is the filesystem boundary of
`write_results_to_disk`. -/
def main_tail (scraped : List Node)
    (io : List SearchResult → Except PyErr Unit) : Except PyErr String :=
  match quit_driver_call0 with
  | Except.error e => Except.error e
  | Except.ok _ =>
    match get_top_search_result_from_html scraped with
    | Except.error e => Except.error e
    | Except.ok res =>
      if write_results_to_disk io "results.json" (ResultsArg.one res) then
        Except.ok "Done"
      else
        Except.ok "Failed to save. Something went wrong. Aborting..."

/-- The author rule cannot raise on this soup: every author container
has an `a` descendant carrying a `title` attribute. -/
def authors_ok (bs : Node) : Bool :=
  (find_all bs "span" "hlFld-ContribAuthor").all (fun e => (authorTitle e).isSome)

/-- The abstract rule cannot raise: the container, when present, has a
`p` descendant. -/
def abstract_ok (bs : Node) : Bool :=
  match find bs "div" "issue-item__abstract truncate-text trunc-done" with
  | some parent => (parent.firstTagNamed "p").isSome
  | none => true

/-- The date rule cannot raise: the element, when present, has a
well-defined `.string`. -/
def date_ok (bs : Node) : Bool :=
  match find bs "div" "bookPubDate simple-tooltip__block--b" with
  | some t => (t.string).isSome
  | none => true

/-- The PDF-link rule cannot raise: the anchor, when present, carries
`href`. -/
def pdf_ok (bs : Node) : Bool :=
  match find_attr bs "a" "data-title" "PDF" with
  | some t => (t.getAttr "href").isSome
  | none => true

/-- The citation rule cannot raise: a present `div.citation` has a
`span` descendant with numeric text. -/
def citations_ok (bs : Node) : Bool :=
  match find bs "div" "citation" with
  | some parent =>
    match parent.firstTagNamed "span" with
    | some s => (pyInt s.text).isSome
    | none => false
  | none => true

/-- The download rule cannot raise: same over `div.metric`. -/
def downloads_ok (bs : Node) : Bool :=
  match find bs "div" "metric" with
  | some parent =>
    match parent.firstTagNamed "span" with
    | some s => (pyInt s.text).isSome
    | none => false
  | none => true

/-- Every fallible field rule finds its expected inner structure
whenever its container is present (absent containers are always fine:
they fall back to sentinels). -/
def fragment_ok (bs : Node) : Bool :=
  authors_ok bs && abstract_ok bs && pdf_ok bs && date_ok bs &&
    downloads_ok bs && citations_ok bs

/-- The `NavigableString`s among a child list (no recursion into child
tags). -/
def directStrings : NodeList → List String
  | NodeList.nil => []
  | NodeList.cons (Node.nstring s) cs => s :: directStrings cs
  | NodeList.cons _ cs => directStrings cs

/-- A node's DIRECT text pieces: its immediate string children only. -/
def Node.directTexts : Node → List String
  | Node.nstring _ => []
  | Node.tag _ _ cs => directStrings cs

/-- Modelled from the spec's words for comparison with `parse_title`:
"concatenate all of its direct text pieces with single spaces, collapse
repeated whitespace to one space" — i.e. only the title container's
immediate string children.  The source instead iterates `.strings`,
every string in the subtree. -/
def spec_title (bs : Node) : String :=
  match find bs "span" "hlFld-Title" with
  | some t => collapseWs (String.intercalate " " t.directTexts)
  | none => ""

/-- The all-sentinel record an empty fragment extracts to. -/
def sentinelRecord : SearchResult :=
  ⟨"", [], "", "", "", some "", -1, -1, ""⟩

/-- A fragment with no recognised containers at all. -/
def emptyFragment : Node :=
  Node.tag "li" [] (nodes [])

/-- A malformed fragment: the citation container is present but empty,
so `citation_parent_tag.span` is Python `None`. -/
def citBroken : Node :=
  Node.tag "li" [] (nodes [Node.tag "div" [("class", "citation")] (nodes [])])

/-- A fragment whose DOI anchor has no children, so `doi_tag.string` is
Python `None`. -/
def doiBroken : Node :=
  Node.tag "li" [] (nodes
    [Node.tag "a" [("class", "issue-item__doi dot-separator")] (nodes [])])

/-- Two author containers, each `a` carrying the full name in `title`
and abbreviated visible text. -/
def authorsFragment : Node :=
  Node.tag "li" [] (nodes [
    Node.tag "span" [("class", "hlFld-ContribAuthor")] (nodes [
      Node.tag "a" [("title", "Jane Doe"), ("href", "/profile/1")]
        (nodes [Node.nstring "J. Doe"])]),
    Node.tag "span" [("class", "hlFld-ContribAuthor")] (nodes [
      Node.tag "a" [("title", "Richard Roe")] (nodes [Node.nstring "R. Roe"])])])

/-- The truncated-abstract container with a paragraph whose text already
ends in a period. -/
def abstractFragment : Node :=
  Node.tag "li" [] (nodes [
    Node.tag "div" [("class", "issue-item__abstract truncate-text trunc-done")]
      (nodes [Node.tag "p" [] (nodes [Node.nstring "Ends with period."])])])

/-- The `div` child of `abstractFragment` (the container `find`
returns), and its paragraph. -/
def abstractDiv : Node :=
  Node.tag "div" [("class", "issue-item__abstract truncate-text trunc-done")]
    (nodes [Node.tag "p" [] (nodes [Node.nstring "Ends with period."])])

/-- The paragraph inside `abstractDiv`. -/
def abstractP : Node :=
  Node.tag "p" [] (nodes [Node.nstring "Ends with period."])

/-- A title container holding the spec's example text with a run of
spaces and a newline. -/
def titleSpan : Node :=
  Node.tag "span" [("class", "hlFld-Title")]
    (nodes [Node.nstring "Foo   \n  Bar"])

/-- The fragment around `titleSpan`. -/
def titleFragment : Node :=
  Node.tag "li" [] (nodes [titleSpan])

/-- A title container whose text is split between a direct string and a
nested `b` element — the input separating the source's `.strings` walk
from the spec's "direct text pieces". -/
def titleNestedFragment : Node :=
  Node.tag "li" [] (nodes [
    Node.tag "span" [("class", "hlFld-Title")] (nodes [
      Node.nstring "Foo",
      Node.tag "b" [] (nodes [Node.nstring "Bar"])])])

/-! ## Helper lemmas -/

theorem parse_authors_loop_ok (l : List Node)
    (h : ∀ e ∈ l, (authorTitle e).isSome = true) :
    parse_authors_loop l =
      Except.ok (l.map (fun e => (authorTitle e).getD "")) := by
  induction l with
  | nil => rfl
  | cons e es ih =>
    have he : (authorTitle e).isSome = true := h e (List.mem_cons_self e es)
    have hes : ∀ x ∈ es, (authorTitle x).isSome = true :=
      fun x hx => h x (List.mem_cons_of_mem e hx)
    cases hfa : e.firstTagNamed "a" with
    | none => simp [authorTitle, hfa] at he
    | some a =>
      cases hat : a.getAttr "title" with
      | none => simp [authorTitle, hfa, hat] at he
      | some t =>
        simp [parse_authors_loop, hfa, hat, ih hes, authorTitle]

theorem parse_authors_isOk (bs : Node) (h : authors_ok bs = true) :
    ∃ l, parse_authors bs = Except.ok l := by
  refine ⟨_, parse_authors_loop_ok _ ?_⟩
  intro e he
  have := List.all_eq_true.mp h e he
  simpa using this

theorem parse_abstract_isOk (bs : Node) (h : abstract_ok bs = true) :
    ∃ s, parse_abstract bs = Except.ok s := by
  cases hf : find bs "div" "issue-item__abstract truncate-text trunc-done" with
  | none => exact ⟨"", by simp [parse_abstract, hf]⟩
  | some parent =>
    cases hp : parent.firstTagNamed "p" with
    | none => simp [abstract_ok, hf, hp] at h
    | some p => exact ⟨replaceNewlines p.text ++ "...", by simp [parse_abstract, hf, hp]⟩

theorem parse_date_isOk (bs : Node) (h : date_ok bs = true) :
    ∃ s, parse_date bs = Except.ok s := by
  cases hf : find bs "div" "bookPubDate simple-tooltip__block--b" with
  | none => exact ⟨"", by simp [parse_date, hf]⟩
  | some t =>
    cases hs : t.string with
    | none => simp [date_ok, hf, hs] at h
    | some d => exact ⟨collapseWs d, by simp [parse_date, hf, hs]⟩

theorem parse_pdf_link_isOk (bs : Node) (h : pdf_ok bs = true) :
    ∃ s, parse_pdf_link bs = Except.ok s := by
  cases hf : find_attr bs "a" "data-title" "PDF" with
  | none => exact ⟨"", by simp [parse_pdf_link, hf]⟩
  | some t =>
    cases ha : t.getAttr "href" with
    | none => simp [pdf_ok, hf, ha] at h
    | some u => exact ⟨u, by simp [parse_pdf_link, hf, ha]⟩

theorem parse_total_citations_isOk (bs : Node) (h : citations_ok bs = true) :
    ∃ n, parse_total_citations bs = Except.ok n := by
  cases hf : find bs "div" "citation" with
  | none => exact ⟨-1, by simp [parse_total_citations, hf]⟩
  | some parent =>
    cases hp : parent.firstTagNamed "span" with
    | none => simp [citations_ok, hf, hp] at h
    | some s =>
      cases hn : pyInt s.text with
      | none => simp [citations_ok, hf, hp, hn] at h
      | some n => exact ⟨n, by simp [parse_total_citations, hf, hp, hn]⟩

theorem parse_total_downloads_isOk (bs : Node) (h : downloads_ok bs = true) :
    ∃ n, parse_total_downloads bs = Except.ok n := by
  cases hf : find bs "div" "metric" with
  | none => exact ⟨-1, by simp [parse_total_downloads, hf]⟩
  | some parent =>
    cases hp : parent.firstTagNamed "span" with
    | none => simp [downloads_ok, hf, hp] at h
    | some s =>
      cases hn : pyInt s.text with
      | none => simp [downloads_ok, hf, hp, hn] at h
      | some n => exact ⟨n, by simp [parse_total_downloads, hf, hp, hn]⟩

/-- C1: extraction never raises and yields a record provided every
container that is present is internally well-formed (each author
container links a full-name attribute, an abstract container holds a
paragraph, a present date element has a `.string`, the PDF anchor has
`href`, citation and metric containers hold a numeric `span`); absent
containers always fall back to sentinels.  This is the amended C1: on
one of those present-but-malformed containers an exception escapes
`parse_html` (see the counterexample).  The DOI anchor is the one
container with no well-formedness condition: `parse_doi` returns its
`.string` unchecked, so a malformed DOI anchor never raises — it puts
Python `None` in the record instead (the C4 deviation). -/
theorem C1_extraction_ok_of_wellformed (bs : Node) (h : fragment_ok bs = true) :
    ∃ r, parse_html bs = Except.ok r := by
  simp only [fragment_ok, Bool.and_eq_true] at h
  obtain ⟨⟨⟨⟨⟨ha, hab⟩, hpdf⟩, hd⟩, hdl⟩, hcit⟩ := h
  obtain ⟨la, hla⟩ := parse_authors_isOk bs ha
  obtain ⟨sa, hsa⟩ := parse_abstract_isOk bs hab
  obtain ⟨sp, hsp⟩ := parse_pdf_link_isOk bs hpdf
  obtain ⟨sd, hsd⟩ := parse_date_isOk bs hd
  obtain ⟨ndl, hndl⟩ := parse_total_downloads_isOk bs hdl
  obtain ⟨nc, hnc⟩ := parse_total_citations_isOk bs hcit
  exact ⟨⟨parse_title bs, la, parse_conference bs, sa, sp, parse_doi bs, nc, ndl, sd⟩,
    by simp [parse_html, hla, hsa, hsp, hsd, hndl, hnc]⟩

theorem parse_html_ok_elim (bs : Node) (r : SearchResult)
    (h : parse_html bs = Except.ok r) :
    r.title = parse_title bs ∧
    parse_authors bs = Except.ok r.authors ∧
    r.conference = parse_conference bs ∧
    parse_abstract bs = Except.ok r.abstract ∧
    parse_pdf_link bs = Except.ok r.eprint_url ∧
    r.doi = parse_doi bs ∧
    parse_date bs = Except.ok r.date ∧
    parse_total_downloads bs = Except.ok r.total_downloads ∧
    parse_total_citations bs = Except.ok r.total_citations := by
  simp only [parse_html] at h
  cases h1 : parse_authors bs with
  | error e => simp [h1] at h
  | ok authors =>
  rw [h1] at h
  cases h2 : parse_abstract bs with
  | error e => simp [h2] at h
  | ok abstract =>
  rw [h2] at h
  cases h3 : parse_pdf_link bs with
  | error e => simp [h3] at h
  | ok pdf_link =>
  rw [h3] at h
  cases h4 : parse_date bs with
  | error e => simp [h4] at h
  | ok date =>
  rw [h4] at h
  cases h5 : parse_total_downloads bs with
  | error e => simp [h5] at h
  | ok dl =>
  rw [h5] at h
  cases h6 : parse_total_citations bs with
  | error e => simp [h6] at h
  | ok cit =>
  rw [h6] at h
  simp only [Except.ok.injEq] at h
  subst h
  exact ⟨rfl, rfl, rfl, rfl, rfl, rfl, rfl, rfl, rfl⟩

/-! ## Claims -/

theorem parse_doi_eq_none_iff (bs : Node) :
    parse_doi bs = none ↔
      ∃ t, find bs "a" "issue-item__doi dot-separator" = some t ∧
        t.string = none := by
  cases hf : find bs "a" "issue-item__doi dot-separator" with
  | none => simp [parse_doi, hf]
  | some t => simp [parse_doi, hf]

/-- C1 counterexample: a fragment whose citation container is present
but has no `span` child makes `parse_html` raise `AttributeError`
(`citation_tag.text` on `None`), so extraction does not return a
sentinel record for every malformed fragment. -/
theorem C1_counterexample :
    parse_html (soup1 citBroken) = Except.error PyErr.attributeError := rfl

theorem C1_witness :
    fragment_ok (soup1 emptyFragment) = true ∧
    ∃ r, parse_html (soup1 emptyFragment) = Except.ok r :=
  ⟨rfl, C1_extraction_ok_of_wellformed (soup1 emptyFragment) rfl⟩

/-- C2: `get_search_results_from_html` builds the record list but has no
`return` statement, so whenever every fragment parses it returns Python
`None` instead of the list, and `search_top_20` then raises `TypeError`
iterating `None` in its `to_dict` comprehension. -/
theorem C2_get_search_results_returns_none (args : List Node)
    (rs : List SearchResult) (h : parse_html_loop args = Except.ok rs) :
    get_search_results_from_html args = Except.ok none ∧
    search_top_20_post args true = Except.error PyErr.typeError := by
  constructor
  · simp [get_search_results_from_html, h]
  · simp [search_top_20_post, get_search_results_from_html, h]

theorem C2_witness :
    parse_html_loop [soup1 emptyFragment] = Except.ok [sentinelRecord] ∧
    (get_search_results_from_html [soup1 emptyFragment] = Except.ok none ∧
      search_top_20_post [soup1 emptyFragment] true =
        Except.error PyErr.typeError) :=
  ⟨rfl, C2_get_search_results_returns_none [soup1 emptyFragment] [sentinelRecord] rfl⟩

/-- C3: the top-1 operation parses exactly the first fragment when one
exists, and `args[0]` on an empty argument tuple raises `IndexError`
(no record, no explicit NoResults condition). -/
theorem C3_top1_is_first_fragment :
    (∀ (a : Node) (rest : List Node),
      get_top_search_result_from_html (a :: rest) = parse_html a) ∧
    get_top_search_result_from_html [] = Except.error PyErr.indexError :=
  ⟨fun a rest => rfl, rfl⟩

/-- C4 (amended): a successfully extracted record has every field
present, and each field whose container is absent holds its sentinel
(`""`, `[]`, `some ""` for doi, `-1` for the counts); the one deviation
from the claim is `doi`, which is Python `None` exactly when the DOI
anchor is present but its `.string` is `None`. -/
theorem C4_fields_present_or_sentinel (bs : Node) (r : SearchResult)
    (h : parse_html bs = Except.ok r) :
    (find bs "span" "hlFld-Title" = none → r.title = "") ∧
    (find_all bs "span" "hlFld-ContribAuthor" = [] → r.authors = []) ∧
    (find bs "span" "epub-section__title" = none → r.conference = "") ∧
    (find bs "div" "issue-item__abstract truncate-text trunc-done" = none →
      r.abstract = "") ∧
    (find_attr bs "a" "data-title" "PDF" = none → r.eprint_url = "") ∧
    (find bs "a" "issue-item__doi dot-separator" = none → r.doi = some "") ∧
    (find bs "div" "citation" = none → r.total_citations = -1) ∧
    (find bs "div" "metric" = none → r.total_downloads = -1) ∧
    (find bs "div" "bookPubDate simple-tooltip__block--b" = none →
      r.date = "") ∧
    (r.doi = none ↔
      ∃ t, find bs "a" "issue-item__doi dot-separator" = some t ∧
        t.string = none) := by
  obtain ⟨ht, hau, hc, hab, hpdf, hdoi, hdate, hdl, hcit⟩ :=
    parse_html_ok_elim bs r h
  refine ⟨?_, ?_, ?_, ?_, ?_, ?_, ?_, ?_, ?_, ?_⟩
  · intro hf; simp [ht, parse_title, hf]
  · intro hf
    have h2 := hau
    simp [parse_authors, hf, parse_authors_loop] at h2
    exact h2
  · intro hf; simp [hc, parse_conference, hf]
  · intro hf
    have h2 := hab
    simp [parse_abstract, hf] at h2
    exact h2.symm
  · intro hf
    have h2 := hpdf
    simp [parse_pdf_link, hf] at h2
    exact h2.symm
  · intro hf; simp [hdoi, parse_doi, hf]
  · intro hf
    have h2 := hcit
    simp [parse_total_citations, hf] at h2
    exact h2.symm
  · intro hf
    have h2 := hdl
    simp [parse_total_downloads, hf] at h2
    exact h2.symm
  · intro hf
    have h2 := hdate
    simp [parse_date, hf] at h2
    exact h2.symm
  · rw [hdoi]; exact parse_doi_eq_none_iff bs

/-- C4 counterexample: a fragment whose DOI anchor has no children
extracts successfully, but its `doi` field is Python `None`, not a
string value or the `""` sentinel. -/
theorem C4_counterexample :
    Except.map SearchResult.doi (parse_html (soup1 doiBroken)) =
      Except.ok none := rfl

theorem C4_witness :
    parse_html (soup1 emptyFragment) = Except.ok sentinelRecord ∧
    sentinelRecord.total_citations = -1 ∧ sentinelRecord.doi = some "" :=
  ⟨rfl,
   (C4_fields_present_or_sentinel (soup1 emptyFragment) sentinelRecord
      rfl).2.2.2.2.2.2.1 rfl,
   (C4_fields_present_or_sentinel (soup1 emptyFragment) sentinelRecord
      rfl).2.2.2.2.2.1 rfl⟩

/-- C5 (code behavior at the failing input): the CLI tail crashes with
`TypeError` for every scraped result list and every filesystem
behavior, because line 315 calls `quit_driver()` without its required
`driver` argument; no record is written and no message is printed. -/
theorem C5_cli_crashes_before_writing (scraped : List Node)
    (io : List SearchResult → Except PyErr Unit) :
    main_tail scraped io = Except.error PyErr.typeError := rfl

/-- C6: `write_results_to_disk` returns `True` exactly when the write
block succeeds and `False` on any I/O error, for every path and every
record or record list; its return type is a plain `Bool`, so the error
never propagates past the boundary. -/
theorem C6_write_returns_bool (io : List SearchResult → Except PyErr Unit)
    (file_path : String) (results : ResultsArg) :
    (io (normalize_results results) = Except.ok () →
      write_results_to_disk io file_path results = true) ∧
    (∀ e : PyErr, io (normalize_results results) = Except.error e →
      write_results_to_disk io file_path results = false) := by
  constructor
  · intro h; simp [write_results_to_disk, h]
  · intro e h; simp [write_results_to_disk, h]

theorem C6_witness :
    ((fun _ => Except.error PyErr.osError :
        List SearchResult → Except PyErr Unit)
      (normalize_results (ResultsArg.one sentinelRecord)) =
        Except.error PyErr.osError) ∧
    write_results_to_disk (fun _ => Except.error PyErr.osError)
      "results.json" (ResultsArg.one sentinelRecord) = false :=
  ⟨rfl,
   (C6_write_returns_bool (fun _ => Except.error PyErr.osError)
      "results.json" (ResultsArg.one sentinelRecord)).2 PyErr.osError rfl⟩

/-- C7: on a well-formed fragment the extracted author list is exactly
the full-name (`title`) attribute of each author container's anchor, in
document order, so it has one entry per container; with no containers
it is empty (`map` over `[]`). -/
theorem C7_authors_in_document_order (bs : Node) (h : authors_ok bs = true) :
    parse_authors bs = Except.ok
      ((find_all bs "span" "hlFld-ContribAuthor").map
        (fun e => (authorTitle e).getD "")) ∧
    ∀ l : List String, parse_authors bs = Except.ok l →
      l.length = (find_all bs "span" "hlFld-ContribAuthor").length := by
  have hmap : parse_authors bs = Except.ok
      ((find_all bs "span" "hlFld-ContribAuthor").map
        (fun e => (authorTitle e).getD "")) := by
    refine parse_authors_loop_ok _ ?_
    intro e he
    simpa using List.all_eq_true.mp h e he
  refine ⟨hmap, fun l hl => ?_⟩
  rw [hmap] at hl
  injection hl with hl
  rw [← hl]
  simp

theorem C7_witness :
    authors_ok (soup1 authorsFragment) = true ∧
    parse_authors (soup1 authorsFragment) =
      Except.ok ["Jane Doe", "Richard Roe"] :=
  ⟨rfl,
   ((C7_authors_in_document_order (soup1 authorsFragment) rfl).1).trans rfl⟩

/-- C8: with the truncated-abstract container and its paragraph
present, the abstract is the paragraph text with newlines replaced by
spaces and the literal `"..."` appended, so it always ends in the
ellipsis marker. -/
theorem C8_abstract_ellipsis (bs parent p : Node)
    (h1 : find bs "div" "issue-item__abstract truncate-text trunc-done" =
      some parent)
    (h2 : parent.firstTagNamed "p" = some p) :
    parse_abstract bs = Except.ok (replaceNewlines p.text ++ "...") ∧
    ∃ s, parse_abstract bs = Except.ok (s ++ "...") := by
  have hmain : parse_abstract bs =
      Except.ok (replaceNewlines p.text ++ "...") := by
    simp [parse_abstract, h1, h2]
  exact ⟨hmain, ⟨replaceNewlines p.text, hmain⟩⟩

theorem C8_witness :
    parse_abstract (soup1 abstractFragment) =
      Except.ok "Ends with period...." :=
  ((C8_abstract_ellipsis (soup1 abstractFragment) abstractDiv abstractP
    rfl rfl).1).trans rfl

/-- C9 (amended): when the title container is present, the extracted
title is ALL strings of the container's subtree — nested elements'
text included, not only the direct text pieces — joined with single
spaces and whitespace-collapsed. -/
theorem C9_title_joins_all_subtree_strings (bs t : Node)
    (h : find bs "span" "hlFld-Title" = some t) :
    parse_title bs = collapseWs (String.intercalate " " t.strings) := by
  simp [parse_title, h]

/-- C9 counterexample: on a title container with a nested element the
source's extraction ("Foo Bar") differs from the spec's direct-pieces
reading ("Foo"). -/
theorem C9_counterexample :
    parse_title (soup1 titleNestedFragment) = "Foo Bar" ∧
    spec_title (soup1 titleNestedFragment) = "Foo" ∧
    ¬ ("Foo Bar" : String) = "Foo" :=
  ⟨rfl, rfl, by decide⟩

theorem C9_witness :
    parse_title (soup1 titleFragment) = "Foo Bar" :=
  (C9_title_joins_all_subtree_strings (soup1 titleFragment) titleSpan
    rfl).trans rfl

/-- C10 (amended): `save_results` raises `AttributeError` when no search
ever set `self.parsed_res`, raises `ValueError` when it is set but
falsy (Python `None` or an empty list), and otherwise returns Python
`None` — never a `True`/`False` signal — whatever the write outcome. -/
theorem C10_save_results_none_or_raises
    (io : List SearchResult → Except PyErr Unit) (fp : String)
    (v : PyParsedRes) :
    save_results ParsedResAttr.unset io fp =
      Except.error PyErr.attributeError ∧
    (v.truthy = false → save_results (ParsedResAttr.set v) io fp =
      Except.error PyErr.valueError) ∧
    (v.truthy = true → save_results (ParsedResAttr.set v) io fp =
      Except.ok none) := by
  refine ⟨rfl, fun h => ?_, fun h => ?_⟩ <;> simp [save_results, h]

/-- C10 counterexample: with `parsed_res` never set (the state right
after construction), `save_results` raises `AttributeError`, not the
`ValueError` the claim asserts for the unset case. -/
theorem C10_counterexample :
    save_results ParsedResAttr.unset (fun _ => Except.ok ()) "results.json" =
      Except.error PyErr.attributeError ∧
    ¬ (Except.error PyErr.attributeError : Except PyErr (Option Bool)) =
        Except.error PyErr.valueError :=
  ⟨rfl, by simp⟩

theorem C10_witness :
    (PyParsedRes.plist []).truthy = false ∧
    save_results (ParsedResAttr.set (PyParsedRes.plist []))
      (fun _ => Except.error PyErr.osError) "results.json" =
        Except.error PyErr.valueError ∧
    save_results (ParsedResAttr.set (PyParsedRes.pone sentinelRecord))
      (fun _ => Except.error PyErr.osError) "results.json" =
        Except.ok none :=
  ⟨rfl,
   (C10_save_results_none_or_raises (fun _ => Except.error PyErr.osError)
      "results.json" (PyParsedRes.plist [])).2.1 rfl,
   (C10_save_results_none_or_raises (fun _ => Except.error PyErr.osError)
      "results.json" (PyParsedRes.pone sentinelRecord)).2.2 rfl⟩

end AcmLibSearch
